import Mathlib

/-!
Shallow embedding of the TensorFlow custom op kernel in
src/tensorflow_mri/cc/kernels/traj_kernels.cc.

The kernel class SpiralWaveformOp stores nine scalar attributes read in its
constructor and, in Compute, allocates a temporary DT_FLOAT tensor of shape
(SWF_MAX_WAVEFORM_SIZE, 2), calls the external routine
calculate_spiral_trajectory once with the nine attributes, checks the returned
status with OP_REQUIRES, slices the buffer to the reported length and sets the
slice as output 0.

Machine scalars are modelled exactly: the wrapper performs no floating-point
arithmetic of its own, so each 32-bit float attribute is represented by its
exact rational value, and the widening casts to double and to long are value
preserving.  The external routine, whose implementation is not part of this
repository, is modelled as a mathematical function of the nine scalar
arguments; the capacity constant SWF_MAX_WAVEFORM_SIZE, defined in the
external header, is kept as an explicit parameter.
-/

/-- Exact value of a 32-bit IEEE float, represented by the rational it denotes.
The wrapper never computes with these values, it only stores and forwards
them. -/
abbrev F32 : Type := Rat

/-- Exact value of a 64-bit IEEE double, represented by the rational it
denotes. -/
abbrev F64 : Type := Rat

/-- Widening cast (double) x applied to a float value: exact, value
preserving. -/
def floatToDouble (x : F32) : F64 := x

/-- Widening cast (long) x applied to an int value: exact, value
preserving. -/
def intToLong (x : Int) : Int := x

/-- The TensorFlow element dtype of the buffer and output tensors; only
DT_FLOAT occurs in the kernel. -/
inductive DataType where
  | DT_FLOAT
deriving DecidableEq, Repr

/-- Result of one call to the external routine calculate_spiral_trajectory:
the int status it returns, the long it writes through the waveform_length
pointer, and the contents of the caller buffer after the call (row i holds the
two floats written at offsets 2i and 2i+1). -/
structure TrajResult where
  status : Int
  waveform_length : Int
  mem : Nat → F32 × F32

/-- Mathematical model of the external routine calculate_spiral_trajectory: a
function of the nine scalar arguments, in the positional order of the call
site in Compute (base_resolution, spiral_arms, field_of_view, max_grad_ampl,
min_rise_time, dwell_time, readout_os, gradient_delay, larmor_const). -/
abbrev TrajRoutine : Type :=
  Int → Int → F64 → F64 → F64 → F64 → F64 → F64 → F64 → TrajResult

/-- Persistent state of the kernel object: the nine attribute fields read by
the constructor SpiralWaveformOp, with the declared C++ types int, int and
float times seven. -/
structure SpiralWaveformOp where
  base_resolution_ : Int
  spiral_arms_ : Int
  field_of_view_ : F32
  max_grad_ampl_ : F32
  min_rise_time_ : F32
  dwell_time_ : F32
  readout_os_ : F32
  gradient_delay_ : F32
  larmor_const_ : F32
deriving DecidableEq, Repr

/-- Record of one invocation of the external routine: the nine actual scalar
arguments, fields listed in the positional order of the call site. -/
structure TrajCall where
  base_resolution : Int
  spiral_arms : Int
  field_of_view : F64
  max_grad_ampl : F64
  min_rise_time : F64
  dwell_time : F64
  readout_os : F64
  gradient_delay : F64
  larmor_const : F64
deriving DecidableEq, Repr

/-- The nine actual arguments the body of Compute passes to the routine: the
two integer attributes under a (long) cast, the seven float attributes under a
(double) cast, in source order. -/
def SpiralWaveformOp.trajArgs (op : SpiralWaveformOp) : TrajCall :=
  { base_resolution := intToLong op.base_resolution_,
    spiral_arms := intToLong op.spiral_arms_,
    field_of_view := floatToDouble op.field_of_view_,
    max_grad_ampl := floatToDouble op.max_grad_ampl_,
    min_rise_time := floatToDouble op.min_rise_time_,
    dwell_time := floatToDouble op.dwell_time_,
    readout_os := floatToDouble op.readout_os_,
    gradient_delay := floatToDouble op.gradient_delay_,
    larmor_const := floatToDouble op.larmor_const_ }

/-- Application of the modelled routine to a recorded argument list, argument
by argument in positional order. -/
def runRoutine (routine : TrajRoutine) (c : TrajCall) : TrajResult :=
  routine c.base_resolution c.spiral_arms c.field_of_view c.max_grad_ampl
    c.min_rise_time c.dwell_time c.readout_os c.gradient_delay c.larmor_const

/-- An output tensor as set by ctx.set_output: an element dtype together with
the rows of a rank-2 tensor whose second dimension is 2. -/
structure TensorOut where
  dtype : DataType
  rows : List (F32 × F32)
deriving DecidableEq, Repr

/-- The shape of the output tensor: first dimension the number of rows, second
dimension 2, one column for Gx and one for Gy. -/
def TensorOut.shape (t : TensorOut) : List Int :=
  [(t.rows.length : Int), 2]

/-- Observable outcome of one Compute call: either output 0 was set to a
tensor, or OP_REQUIRES recorded an internal error and returned without
setting an output, or the Tensor.Slice bounds check failed because the
reported length was outside the allocated buffer. -/
inductive ComputeResult where
  | ok (output : TensorOut)
  | internalError (message : String)
  | undefinedSlice
deriving DecidableEq, Repr

/-- True exactly when the outcome set an output tensor. -/
def ComputeResult.isOk : ComputeResult → Bool
  | ComputeResult.ok _ => true
  | _ => false

/-- True exactly when the outcome is the OP_REQUIRES internal error. -/
def ComputeResult.isInternalError : ComputeResult → Bool
  | ComputeResult.internalError _ => true
  | _ => false

/-- True exactly when the outcome is an out-of-bounds slice. -/
def ComputeResult.isUndefinedSlice : ComputeResult → Bool
  | ComputeResult.undefinedSlice => true
  | _ => false

/-- Rows of the temporary buffer tensor of shape (maxSize, 2) as left in
memory after the routine call wrote into it. -/
def tempBufferRows (maxSize : Nat) (mem : Nat → F32 × F32) :
    List (F32 × F32) :=
  (List.range maxSize).map mem

/-- Tensor.Slice 0 lim applied to the temporary tensor, whose first dimension
is maxSize: the slice is defined exactly when 0 ≤ lim ≤ maxSize, in which case
it is the prefix of the first lim rows; otherwise the access is outside the
allocated buffer. -/
def sliceRows (maxSize : Nat) (mem : Nat → F32 × F32) (lim : Int) :
    Option (List (F32 × F32)) :=
  if 0 ≤ lim ∧ lim ≤ (maxSize : Int) then
    some ((tempBufferRows maxSize mem).take lim.toNat)
  else
    none

/-- Everything one Compute call does that is observable to the rest of the
process: the member fields when it returns, the sequence of invocations of
the external routine it performed, and the outcome. -/
structure ComputeEffects where
  postState : SpiralWaveformOp
  calls : List TrajCall
  result : ComputeResult

/-- Shallow embedding of SpiralWaveformOp.Compute.  The body allocates the
temporary DT_FLOAT tensor of shape (SWF_MAX_WAVEFORM_SIZE, 2) — modelled as
always succeeding, out-of-memory being outside the model — then calls
calculate_spiral_trajectory once with the nine cast attributes, then checks
the status with OP_REQUIRES (on a nonzero status it records
errors.Internal and returns without setting an output), then slices the
buffer to the reported length and sets the slice as output 0.  The body never
assigns to a member field, so the post state is the input state. -/
def SpiralWaveformOp.Compute (maxSize : Nat) (routine : TrajRoutine)
    (op : SpiralWaveformOp) : ComputeEffects :=
  if (runRoutine routine op.trajArgs).status = 0 then
    match sliceRows maxSize (runRoutine routine op.trajArgs).mem
        (runRoutine routine op.trajArgs).waveform_length with
    | some rows =>
      { postState := op,
        calls := [op.trajArgs],
        result := ComputeResult.ok { dtype := DataType.DT_FLOAT, rows := rows } }
    | none =>
      { postState := op,
        calls := [op.trajArgs],
        result := ComputeResult.undefinedSlice }
  else
    { postState := op,
      calls := [op.trajArgs],
      result := ComputeResult.internalError
        ("failed during `calculate_spiral_trajectory`") }

/-- Modelled from the spec: the contract of the external generator
calculate_spiral_trajectory, whose implementation is not part of this
repository.  Whenever the routine reports success (status 0) it has written a
length L with 1 ≤ L ≤ capacity. -/
def RoutineMeetsSpec (maxSize : Nat) (routine : TrajRoutine) : Prop :=
  ∀ c : TrajCall, (runRoutine routine c).status = 0 →
    1 ≤ (runRoutine routine c).waveform_length ∧
    (runRoutine routine c).waveform_length ≤ (maxSize : Int)

/-- On a nonzero status the OP_REQUIRES check fires: Compute records the
internal error, performs the single routine call, and leaves the fields
unchanged. -/
theorem compute_eq_of_fail (maxSize : Nat) (routine : TrajRoutine)
    (op : SpiralWaveformOp)
    (h : (runRoutine routine op.trajArgs).status ≠ 0) :
    op.Compute maxSize routine =
      { postState := op,
        calls := [op.trajArgs],
        result := ComputeResult.internalError
          ("failed during `calculate_spiral_trajectory`") } := by
  unfold SpiralWaveformOp.Compute
  rw [if_neg h]

/-- On status 0 with the reported length inside the allocated buffer, Compute
sets output 0 to the DT_FLOAT prefix of the buffer of that length. -/
theorem compute_eq_of_ok (maxSize : Nat) (routine : TrajRoutine)
    (op : SpiralWaveformOp)
    (h0 : (runRoutine routine op.trajArgs).status = 0)
    (hlo : 0 ≤ (runRoutine routine op.trajArgs).waveform_length)
    (hhi : (runRoutine routine op.trajArgs).waveform_length ≤ (maxSize : Int)) :
    op.Compute maxSize routine =
      { postState := op,
        calls := [op.trajArgs],
        result := ComputeResult.ok
          { dtype := DataType.DT_FLOAT,
            rows := (tempBufferRows maxSize
                (runRoutine routine op.trajArgs).mem).take
              (runRoutine routine op.trajArgs).waveform_length.toNat } } := by
  have hs : sliceRows maxSize (runRoutine routine op.trajArgs).mem
      (runRoutine routine op.trajArgs).waveform_length =
      some ((tempBufferRows maxSize (runRoutine routine op.trajArgs).mem).take
        (runRoutine routine op.trajArgs).waveform_length.toNat) := by
    unfold sliceRows
    exact if_pos ⟨hlo, hhi⟩
  unfold SpiralWaveformOp.Compute
  rw [if_pos h0, hs]

/-- On status 0 with the reported length outside the allocated buffer, the
Tensor.Slice bounds check fails. -/
theorem compute_eq_of_oob (maxSize : Nat) (routine : TrajRoutine)
    (op : SpiralWaveformOp)
    (h0 : (runRoutine routine op.trajArgs).status = 0)
    (hb : ¬ (0 ≤ (runRoutine routine op.trajArgs).waveform_length ∧
      (runRoutine routine op.trajArgs).waveform_length ≤ (maxSize : Int))) :
    op.Compute maxSize routine =
      { postState := op,
        calls := [op.trajArgs],
        result := ComputeResult.undefinedSlice } := by
  have hs : sliceRows maxSize (runRoutine routine op.trajArgs).mem
      (runRoutine routine op.trajArgs).waveform_length = none := by
    unfold sliceRows
    exact if_neg hb
  unfold SpiralWaveformOp.Compute
  rw [if_pos h0, hs]

/-- The temporary buffer holds exactly maxSize rows. -/
theorem tempBufferRows_length (maxSize : Nat) (mem : Nat → F32 × F32) :
    (tempBufferRows maxSize mem).length = maxSize := by
  unfold tempBufferRows
  rw [List.length_map, List.length_range]

/-- C1: the operation fails with the operation-level internal error exactly
when calculate_spiral_trajectory returns a nonzero status, and when the
routine returns status 0 the operation succeeds and sets an output tensor
(given the generator contract, which keeps the reported length inside the
buffer so the success path is defined). -/
theorem compute_fails_iff_nonzero_status (maxSize : Nat)
    (routine : TrajRoutine) (op : SpiralWaveformOp)
    (hspec : RoutineMeetsSpec maxSize routine) :
    (op.Compute maxSize routine).result.isInternalError =
      ((runRoutine routine op.trajArgs).status != 0) ∧
    (op.Compute maxSize routine).result.isOk =
      ((runRoutine routine op.trajArgs).status == 0) := by
  by_cases h : (runRoutine routine op.trajArgs).status = 0
  · obtain ⟨h1, h2⟩ := hspec op.trajArgs h
    rw [compute_eq_of_ok maxSize routine op h (le_trans (by norm_num) h1) h2]
    simp [ComputeResult.isInternalError, ComputeResult.isOk, h]
  · rw [compute_eq_of_fail maxSize routine op h]
    simp [ComputeResult.isInternalError, ComputeResult.isOk, h]

/-- C2: on the generator contract, every successful call sets an output with
at least one and at most maxSize rows; in particular it is never empty. -/
theorem compute_success_length_bounds (maxSize : Nat)
    (routine : TrajRoutine) (op : SpiralWaveformOp)
    (hspec : RoutineMeetsSpec maxSize routine) (out : TensorOut)
    (hok : (op.Compute maxSize routine).result = ComputeResult.ok out) :
    1 ≤ out.rows.length ∧ out.rows.length ≤ maxSize := by
  by_cases h : (runRoutine routine op.trajArgs).status = 0
  · obtain ⟨h1, h2⟩ := hspec op.trajArgs h
    rw [compute_eq_of_ok maxSize routine op h (le_trans (by norm_num) h1) h2]
      at hok
    obtain ⟨rfl⟩ := (ComputeResult.ok.injEq _ _).mp hok.symm
    rw [List.length_take, tempBufferRows_length]
    omega
  · rw [compute_eq_of_fail maxSize routine op h] at hok
    exact absurd hok (by simp)

/-- C3: on a nonzero status the operation records the internal error and sets
no output at all. -/
theorem compute_failure_sets_no_output (maxSize : Nat)
    (routine : TrajRoutine) (op : SpiralWaveformOp)
    (h : (runRoutine routine op.trajArgs).status ≠ 0) :
    (op.Compute maxSize routine).result =
      ComputeResult.internalError
        ("failed during `calculate_spiral_trajectory`") ∧
    (op.Compute maxSize routine).result.isOk = false := by
  rw [compute_eq_of_fail maxSize routine op h]
  exact ⟨rfl, rfl⟩

/-- C4: the temporary buffer has exactly maxSize rows, and on a successful
call whose reported length L is inside the buffer the output is exactly the
prefix of the first L buffer rows, the tail being discarded. -/
theorem compute_output_is_buffer_prefix (maxSize : Nat)
    (routine : TrajRoutine) (op : SpiralWaveformOp)
    (h0 : (runRoutine routine op.trajArgs).status = 0)
    (hlo : 0 ≤ (runRoutine routine op.trajArgs).waveform_length)
    (hhi : (runRoutine routine op.trajArgs).waveform_length ≤
      (maxSize : Int)) :
    (tempBufferRows maxSize (runRoutine routine op.trajArgs).mem).length =
      maxSize ∧
    (op.Compute maxSize routine).result = ComputeResult.ok
      { dtype := DataType.DT_FLOAT,
        rows := (tempBufferRows maxSize
            (runRoutine routine op.trajArgs).mem).take
          (runRoutine routine op.trajArgs).waveform_length.toNat } := by
  refine ⟨tempBufferRows_length maxSize _, ?_⟩
  rw [compute_eq_of_ok maxSize routine op h0 hlo hhi]

/-- C5: every output the operation sets is a DT_FLOAT tensor of shape
(L, 2), where L is the length written by the routine; each row is one
(Gx, Gy) pair of float values. -/
theorem compute_output_dtype_shape (maxSize : Nat)
    (routine : TrajRoutine) (op : SpiralWaveformOp) (out : TensorOut)
    (hok : (op.Compute maxSize routine).result = ComputeResult.ok out) :
    out.dtype = DataType.DT_FLOAT ∧
    out.shape = [(runRoutine routine op.trajArgs).waveform_length, 2] := by
  by_cases h : (runRoutine routine op.trajArgs).status = 0
  · by_cases hb : 0 ≤ (runRoutine routine op.trajArgs).waveform_length ∧
        (runRoutine routine op.trajArgs).waveform_length ≤ (maxSize : Int)
    · rw [compute_eq_of_ok maxSize routine op h hb.1 hb.2] at hok
      obtain ⟨rfl⟩ := (ComputeResult.ok.injEq _ _).mp hok.symm
      refine ⟨rfl, ?_⟩
      unfold TensorOut.shape
      rw [List.length_take, tempBufferRows_length]
      have := hb.1
      have := hb.2
      congr 1
      omega
    · rw [compute_eq_of_oob maxSize routine op h hb] at hok
      exact absurd hok (by simp)
  · rw [compute_eq_of_fail maxSize routine op h] at hok
    exact absurd hok (by simp)

/-- C6: every Compute call invokes the external routine exactly once, with
the nine attributes in call-site order, base_resolution and spiral_arms under
the (long) cast and the seven float attributes under the (double) cast. -/
theorem compute_calls_routine_once_in_order (maxSize : Nat)
    (routine : TrajRoutine) (op : SpiralWaveformOp) :
    (op.Compute maxSize routine).calls =
      [{ base_resolution := intToLong op.base_resolution_,
         spiral_arms := intToLong op.spiral_arms_,
         field_of_view := floatToDouble op.field_of_view_,
         max_grad_ampl := floatToDouble op.max_grad_ampl_,
         min_rise_time := floatToDouble op.min_rise_time_,
         dwell_time := floatToDouble op.dwell_time_,
         readout_os := floatToDouble op.readout_os_,
         gradient_delay := floatToDouble op.gradient_delay_,
         larmor_const := floatToDouble op.larmor_const_ }] := by
  by_cases h : (runRoutine routine op.trajArgs).status = 0
  · by_cases hb : 0 ≤ (runRoutine routine op.trajArgs).waveform_length ∧
        (runRoutine routine op.trajArgs).waveform_length ≤ (maxSize : Int)
    · rw [compute_eq_of_ok maxSize routine op h hb.1 hb.2]
      rfl
    · rw [compute_eq_of_oob maxSize routine op h hb]
      rfl
  · rw [compute_eq_of_fail maxSize routine op h]
    rfl

/-- C7: the wrapper validates nothing: for every attribute values, including
non-positive ones, the routine is invoked with the values forwarded
unchanged, and the only operation-level error the wrapper ever raises is the
one triggered by a nonzero routine status — never a precondition error of its
own. -/
theorem compute_no_input_validation (maxSize : Nat)
    (routine : TrajRoutine) (op : SpiralWaveformOp) :
    (op.Compute maxSize routine).calls = [op.trajArgs] ∧
    (op.Compute maxSize routine).result.isInternalError =
      ((runRoutine routine op.trajArgs).status != 0) := by
  by_cases h : (runRoutine routine op.trajArgs).status = 0
  · by_cases hb : 0 ≤ (runRoutine routine op.trajArgs).waveform_length ∧
        (runRoutine routine op.trajArgs).waveform_length ≤ (maxSize : Int)
    · rw [compute_eq_of_ok maxSize routine op h hb.1 hb.2]
      simp [ComputeResult.isInternalError, h]
    · rw [compute_eq_of_oob maxSize routine op h hb]
      simp [ComputeResult.isInternalError, h]
  · rw [compute_eq_of_fail maxSize routine op h]
    simp [ComputeResult.isInternalError, h]

/-- C8: two Compute calls with the same routine and field-for-field equal
attribute values produce identical effects: same outcome, same length, same
sample sequence, same call record. -/
theorem compute_deterministic (maxSize : Nat) (routine : TrajRoutine)
    (op1 op2 : SpiralWaveformOp)
    (e1 : op1.base_resolution_ = op2.base_resolution_)
    (e2 : op1.spiral_arms_ = op2.spiral_arms_)
    (e3 : op1.field_of_view_ = op2.field_of_view_)
    (e4 : op1.max_grad_ampl_ = op2.max_grad_ampl_)
    (e5 : op1.min_rise_time_ = op2.min_rise_time_)
    (e6 : op1.dwell_time_ = op2.dwell_time_)
    (e7 : op1.readout_os_ = op2.readout_os_)
    (e8 : op1.gradient_delay_ = op2.gradient_delay_)
    (e9 : op1.larmor_const_ = op2.larmor_const_) :
    op1.Compute maxSize routine = op2.Compute maxSize routine := by
  have hop : op1 = op2 := by
    cases op1
    cases op2
    simp_all
  rw [hop]

/-- C9: Compute never modifies the nine stored attribute fields, and since it
leaves the state unchanged a second call right after behaves exactly as the
first: no state is shared across invocations through the kernel object. -/
theorem compute_preserves_state (maxSize : Nat) (routine : TrajRoutine)
    (op : SpiralWaveformOp) :
    (op.Compute maxSize routine).postState = op ∧
    ((op.Compute maxSize routine).postState).Compute maxSize routine =
      op.Compute maxSize routine := by
  have hpost : (op.Compute maxSize routine).postState = op := by
    by_cases h : (runRoutine routine op.trajArgs).status = 0
    · by_cases hb : 0 ≤ (runRoutine routine op.trajArgs).waveform_length ∧
          (runRoutine routine op.trajArgs).waveform_length ≤ (maxSize : Int)
      · rw [compute_eq_of_ok maxSize routine op h hb.1 hb.2]
      · rw [compute_eq_of_oob maxSize routine op h hb]
    · rw [compute_eq_of_fail maxSize routine op h]
  exact ⟨hpost, by rw [hpost]⟩

/-- C10: on the success path (status 0) the wrapper has no guard of its own
on the reported length, so the Tensor.Slice step stays inside the allocated
buffer exactly when the routine wrote a length L with 0 ≤ L ≤ maxSize, and
goes out of bounds otherwise. -/
theorem compute_slice_in_bounds_iff (maxSize : Nat)
    (routine : TrajRoutine) (op : SpiralWaveformOp)
    (h0 : (runRoutine routine op.trajArgs).status = 0) :
    (op.Compute maxSize routine).result.isUndefinedSlice =
      !(decide (0 ≤ (runRoutine routine op.trajArgs).waveform_length ∧
        (runRoutine routine op.trajArgs).waveform_length ≤
          (maxSize : Int))) := by
  by_cases hb : 0 ≤ (runRoutine routine op.trajArgs).waveform_length ∧
      (runRoutine routine op.trajArgs).waveform_length ≤ (maxSize : Int)
  · rw [compute_eq_of_ok maxSize routine op h0 hb.1 hb.2,
      decide_eq_true hb]
    rfl
  · rw [compute_eq_of_oob maxSize routine op h0 hb, decide_eq_false hb]
    rfl

/-- Attribute values of the example scenario in the spec: base_resolution
256, spiral_arms 16, field_of_view 240, max_grad_ampl 24, min_rise_time
0.0002, dwell_time 0.000004, readout_os 1, gradient_delay 0, larmor_const
42577. -/
def sampleOp : SpiralWaveformOp :=
  { base_resolution_ := 256,
    spiral_arms_ := 16,
    field_of_view_ := 240,
    max_grad_ampl_ := 24,
    min_rise_time_ := 0.0002,
    dwell_time_ := 0.000004,
    readout_os_ := 1,
    gradient_delay_ := 0,
    larmor_const_ := 42577 }

/-- A second kernel object built from the same attribute values as sampleOp,
as read fresh for another request. -/
def sampleOpB : SpiralWaveformOp :=
  { base_resolution_ := 256,
    spiral_arms_ := 16,
    field_of_view_ := 240,
    max_grad_ampl_ := 24,
    min_rise_time_ := 0.0002,
    dwell_time_ := 0.000004,
    readout_os_ := 1,
    gradient_delay_ := 0,
    larmor_const_ := 42577 }

/-- A modelled generator that always succeeds with one zero sample. -/
def goodRoutine : TrajRoutine :=
  fun _ _ _ _ _ _ _ _ _ =>
    { status := 0, waveform_length := 1, mem := fun _ => (0, 0) }

/-- A modelled generator that always fails with status 1. -/
def badRoutine : TrajRoutine :=
  fun _ _ _ _ _ _ _ _ _ =>
    { status := 1, waveform_length := 0, mem := fun _ => (0, 0) }

/-- A modelled generator that violates its contract: status 0 together with a
reported length beyond a buffer of four rows. -/
def rogueRoutine : TrajRoutine :=
  fun _ _ _ _ _ _ _ _ _ =>
    { status := 0, waveform_length := 7, mem := fun _ => (0, 0) }

/-- The output tensor goodRoutine leads to: one zero sample row. -/
def sampleOut : TensorOut :=
  { dtype := DataType.DT_FLOAT, rows := [(0, 0)] }

/-- The always-succeeding generator meets the modelled contract for a buffer
of four rows. -/
theorem goodRoutine_meets_spec : RoutineMeetsSpec 4 goodRoutine := by
  intro c h
  constructor
  · show (1 : Int) ≤ 1
    norm_num
  · show (1 : Int) ≤ ((4 : Nat) : Int)
    norm_num

/-- Witness for C1 at the spec scenario attributes with the well-behaved
generator and a buffer of four rows. -/
theorem compute_fails_iff_nonzero_status_witness :
    (sampleOp.Compute 4 goodRoutine).result.isInternalError =
      ((runRoutine goodRoutine sampleOp.trajArgs).status != 0) ∧
    (sampleOp.Compute 4 goodRoutine).result.isOk =
      ((runRoutine goodRoutine sampleOp.trajArgs).status == 0) :=
  compute_fails_iff_nonzero_status 4 goodRoutine sampleOp
    goodRoutine_meets_spec

/-- Witness for C2: the successful call at the spec scenario attributes sets
an output of one row, inside the bounds 1 and 4. -/
theorem compute_success_length_bounds_witness :
    1 ≤ sampleOut.rows.length ∧ sampleOut.rows.length ≤ 4 :=
  compute_success_length_bounds 4 goodRoutine sampleOp
    goodRoutine_meets_spec sampleOut (by decide)

/-- Witness for C3: with the failing generator the operation records the
internal error and sets no output. -/
theorem compute_failure_sets_no_output_witness :
    (sampleOp.Compute 4 badRoutine).result =
      ComputeResult.internalError
        ("failed during `calculate_spiral_trajectory`") ∧
    (sampleOp.Compute 4 badRoutine).result.isOk = false :=
  compute_failure_sets_no_output 4 badRoutine sampleOp (by decide)

/-- Witness for C4: with the well-behaved generator the buffer has four rows
and the output is the one-row prefix. -/
theorem compute_output_is_buffer_prefix_witness :
    (tempBufferRows 4 (runRoutine goodRoutine sampleOp.trajArgs).mem).length =
      4 ∧
    (sampleOp.Compute 4 goodRoutine).result = ComputeResult.ok
      { dtype := DataType.DT_FLOAT,
        rows := (tempBufferRows 4
            (runRoutine goodRoutine sampleOp.trajArgs).mem).take
          (runRoutine goodRoutine sampleOp.trajArgs).waveform_length.toNat } :=
  compute_output_is_buffer_prefix 4 goodRoutine sampleOp (by decide)
    (by decide) (by decide)

/-- Witness for C5: the output set by the successful call is DT_FLOAT of
shape (1, 2). -/
theorem compute_output_dtype_shape_witness :
    sampleOut.dtype = DataType.DT_FLOAT ∧
    sampleOut.shape =
      [(runRoutine goodRoutine sampleOp.trajArgs).waveform_length, 2] :=
  compute_output_dtype_shape 4 goodRoutine sampleOp sampleOut (by decide)

/-- Witness for C8: two kernel objects holding the spec scenario attributes
produce identical effects. -/
theorem compute_deterministic_witness :
    sampleOp.Compute 4 goodRoutine = sampleOpB.Compute 4 goodRoutine :=
  compute_deterministic 4 goodRoutine sampleOp sampleOpB rfl rfl rfl rfl rfl
    rfl rfl rfl rfl

/-- Witness for C10: the contract-violating generator reports status 0 with
length 7 against a buffer of four rows, and the slice step goes out of
bounds. -/
theorem compute_slice_in_bounds_iff_witness :
    (sampleOp.Compute 4 rogueRoutine).result.isUndefinedSlice =
      !(decide (0 ≤ (runRoutine rogueRoutine sampleOp.trajArgs).waveform_length ∧
        (runRoutine rogueRoutine sampleOp.trajArgs).waveform_length ≤
          ((4 : Nat) : Int))) :=
  compute_slice_in_bounds_iff 4 rogueRoutine sampleOp (by decide)
